import Mathlib

/-!
Verification of the schema-introspection / safe-mutation core of a
single-file SQLite web administration tool (source: sqlite_web.py).

The development shallowly embeds the functions the claims are about:
  * the value codec (minimal_validate_field) together with models of the
    Python string primitives it calls (str.lower, str.strip, str.isdigit,
    float(), base64.b64decode),
  * the primary-key codec (encode_pk / decode_pk),
  * the pagination arithmetic of the table_content view,
  * the POST branches of the structural-mutation views (add_column,
    drop_column, rename_column, add_index, drop_index) as the ordered list
    of externally visible effects they perform,
  * the form-processing loops of table_insert and table_update.
-/

/-! ## Models of the Python string primitives used by the source -/

/-- Python str.lower(), restricted to ASCII (the only case the source
exercises is detecting the literal text "null"). -/
def pyLower (s : String) : String := String.mk (s.data.map Char.toLower)

/-- Whitespace characters stripped by Python str.strip(). -/
def pyIsSpace (c : Char) : Bool :=
  c == ' ' || c == '\t' || c == '\n' || c == '\r' ||
  c == Char.ofNat 11 || c == Char.ofNat 12

def pyStripChars (cs : List Char) : List Char :=
  ((cs.dropWhile pyIsSpace).reverse.dropWhile pyIsSpace).reverse

/-- Python str.strip() with no argument. -/
def pyStrip (s : String) : String := String.mk (pyStripChars s.data)

/-- Python str.isdigit(): nonempty and all digits (ASCII model). -/
def pyIsDigit (s : String) : Bool := !s.data.isEmpty && s.data.all Char.isDigit

/-- Value of a digit string, as computed by Python int() on an
all-digit string. -/
def digitsToNat (cs : List Char) : Nat :=
  cs.foldl (fun n c => n * 10 + (c.toNat - 48)) 0

/-- Consume a leading run of digits, returning the run and the rest. -/
def takeDigits : List Char → List Char × List Char
  | [] => ([], [])
  | c :: rest =>
    if c.isDigit then
      let (ds, r) := takeDigits rest
      (c :: ds, r)
    else ([], c :: rest)

def allDigits1 (cs : List Char) : Bool := !cs.isEmpty && cs.all Char.isDigit

def signedDigits1 : List Char → Bool
  | '+' :: rest => allDigits1 rest
  | '-' :: rest => allDigits1 rest
  | cs => allDigits1 cs

def expPartOk : List Char → Bool
  | [] => true
  | 'e' :: rest => signedDigits1 rest
  | 'E' :: rest => signedDigits1 rest
  | _ => false

/-- Python float(): accepts an optionally signed decimal literal with
optional fraction and exponent, or inf/infinity/nan, surrounded by
optional whitespace. (Digit-group underscores are not modelled; no claim
exercises them.) -/
def pyFloatOk (s : String) : Bool :=
  let cs := pyStripChars s.data
  let cs := match cs with
    | '+' :: rest => rest
    | '-' :: rest => rest
    | cs => cs
  let low := cs.map Char.toLower
  if low = "inf".data || low = "infinity".data || low = "nan".data then true
  else
    let (ip, r1) := takeDigits cs
    match r1 with
    | [] => !ip.isEmpty
    | '.' :: rest =>
      let (fp, r2) := takeDigits rest
      (!ip.isEmpty || !fp.isEmpty) && expPartOk r2
    | r1 => !ip.isEmpty && expPartOk r1

/-! ## Model of base64.b64decode

The source calls base64.b64decode(value) with a str argument and the
default validate=False. That call first encodes the string as ASCII
(raising for any non-ASCII character) and then runs binascii.a2b_base64
in non-strict mode: a character-by-character loop that skips characters
outside the base64 alphabet, consumes data characters in 4-character
groups (emitting a byte at the second, third and fourth character of
each group), ignores a padding '=' seen before a group has 2 data
characters, stops decoding — returning the bytes accumulated so far and
discarding the remaining input — when '=' signs complete a group of 2
or 3 data characters, and raises when data characters are left in an
unfinished group at the end of the input. -/

def b64CharVal (c : Char) : Option Nat :=
  if 'A' ≤ c ∧ c ≤ 'Z' then some (c.toNat - 65)
  else if 'a' ≤ c ∧ c ≤ 'z' then some (c.toNat - 71)
  else if '0' ≤ c ∧ c ≤ '9' then some (c.toNat + 4)
  else if c = '+' then some 62
  else if c = '/' then some 63
  else none

/-- Strict base64 grouping: a sequence of 4-character alphabet groups,
only the final group optionally carrying one or two padding characters.
Used solely to define strict base64 validity (validBase64) for
comparison with the lenient decoder the source actually calls. -/
def b64Groups : List Char → Option (List Nat)
  | [] => some []
  | c1 :: c2 :: c3 :: c4 :: rest =>
    match b64CharVal c1, b64CharVal c2 with
    | some v1, some v2 =>
      if c3 = '=' then
        if c4 = '=' ∧ rest = [] then some [v1 * 4 + v2 / 16] else none
      else
        match b64CharVal c3 with
        | some v3 =>
          if c4 = '=' then
            if rest = [] then
              some [v1 * 4 + v2 / 16, (v2 % 16) * 16 + v3 / 4]
            else none
          else
            match b64CharVal c4 with
            | some v4 =>
              match b64Groups rest with
              | some tail =>
                some ((v1 * 4 + v2 / 16) :: ((v2 % 16) * 16 + v3 / 4) ::
                      ((v3 % 4) * 64 + v4) :: tail)
              | none => none
            | none => none
        | none => none
    | _, _ => none
  | _ => none

/-- The non-strict binascii.a2b_base64 loop. State: the position inside
the current 4-character group (quad_pos, 0-3), the leftover bits of the
previous data character (leftchar), and the count of '=' seen since the
last data character (pads). A '=' that brings a group of 2 or 3 data
characters to four ends decoding with the bytes accumulated so far; a
'=' before the group has 2 data characters is skipped (pads untouched);
characters outside the alphabet are skipped; at the end of the input a
partially filled group is an error. -/
def a2bBase64 : List Char → Nat → Nat → Nat → Option (List Nat)
  | [], quad_pos, _, _ => if quad_pos = 0 then some [] else none
  | c :: rest, quad_pos, leftchar, pads =>
    if c = '=' then
      if 2 ≤ quad_pos ∧ 4 ≤ quad_pos + (pads + 1) then some []
      else a2bBase64 rest quad_pos leftchar
        (if 2 ≤ quad_pos then pads + 1 else pads)
    else
      match b64CharVal c with
      | none => a2bBase64 rest quad_pos leftchar pads
      | some v =>
        if quad_pos = 0 then a2bBase64 rest 1 v 0
        else if quad_pos = 1 then
          match a2bBase64 rest 2 (v % 16) 0 with
          | some tail => some ((leftchar * 4 + v / 16) :: tail)
          | none => none
        else if quad_pos = 2 then
          match a2bBase64 rest 3 (v % 4) 0 with
          | some tail => some ((leftchar * 16 + v / 4) :: tail)
          | none => none
        else
          match a2bBase64 rest 0 0 0 with
          | some tail => some ((leftchar * 64 + v) :: tail)
          | none => none

def pyIsAscii (s : String) : Bool := s.data.all (fun c => c.toNat < 128)

/-- Python base64.b64decode on a str with validate=False, the call the
source makes: the ASCII pre-encoding raises on non-ASCII input, then the
non-strict binascii loop runs. -/
def pyB64Decode (s : String) : Option (List Nat) :=
  if pyIsAscii s then a2bBase64 s.data 0 0 0 else none

/-- Modelled from the spec: "blob columns require valid base64" — strict
base64 validity (4-character alphabet groups with proper final padding,
no foreign characters), stated independently of the lenient decoder so
the two can be compared. -/
def validBase64 (s : String) : Bool := (b64Groups s.data).isSome

example : pyB64Decode "YWJj" = some [97, 98, 99] := by decide
example : pyB64Decode "not-base64!!" = none := by decide
example : pyB64Decode "YW Jj" = some [97, 98, 99] := by decide
example : pyB64Decode "YWJj=" = some [97, 98, 99] := by decide
example : pyB64Decode "=YWJj" = some [97, 98, 99] := by decide
example : pyB64Decode "YQ==YWJj" = some [97] := by decide
example : pyB64Decode "YQ==" = some [97] := by decide
example : pyB64Decode "YQ=" = none := by decide
example : pyB64Decode "YWJjYQ" = none := by decide
example : pyB64Decode "é" = none := by decide
example : pyB64Decode "" = some [] := by decide
example : validBase64 "YW Jj" = false := by decide
example : validBase64 "YWJj=" = false := by decide

/-! ## The value codec: minimal_validate_field

The peewee field classes that minimal_validate_field dispatches on via
isinstance. AutoField subclasses IntegerField in peewee, so it takes the
integer branch. DecimalField, TextField, CharField, DateTimeField,
DateField, TimeField and the JSON text field match none of the isinstance
checks and pass through to the adapter. -/

inductive FieldKind
  | textF | integerF | autoF | floatF | booleanF | blobF
  | jsonF | datetimeF | dateF | decimalF | timeF | charF
deriving DecidableEq, Repr, BEq

/-- The slice of a peewee field that minimal_validate_field consults:
its class (isinstance dispatch) and its null flag. -/
structure FieldInfo where
  ftype : FieldKind
  null : Bool
deriving DecidableEq, Repr

/-- A typed column value as produced by the codec: Python None, a string
kept as-is (integer/float/text values stay strings in the source), a
normalized boolean, or base64-decoded bytes. -/
inductive Value
  | null
  | str (s : String)
  | bool (b : Bool)
  | bytes (bs : List Nat)
deriving DecidableEq, Repr

/-- The final field.db_value(value) adapter call of the source, an
external peewee collaborator. For values that already passed the
preceding per-type checks the adapters of the field classes above accept,
so the call is modelled as succeeding. -/
def db_final (v : Value) : Value × Option String := (v, none)

/-- minimal_validate_field(field, value) from the source, translated
clause by clause: map the literal text "null" (lowered, stripped) to
None; reject None for non-nullable columns; then per-class checks for
integer (isdigit), float (float() parses), boolean (fixed token set,
normalized), blob (base64), with every other class passing through; the
value reaching the adapter unconverted except for boolean and blob. -/
def minimal_validate_field (field : FieldInfo) (raw : String) : Value × Option String :=
  if pyStrip (pyLower raw) = "null" then
    if field.null then (Value.null, none)
    else (Value.str "NULL", some "Column does not allow NULL values.")
  else
    match field.ftype with
    | .integerF | .autoF =>
      if pyIsDigit raw then db_final (Value.str raw)
      else (Value.str raw, some "Value is not a number.")
    | .floatF =>
      if pyFloatOk raw then db_final (Value.str raw)
      else (Value.str raw, some "Value is not a numeric/real.")
    | .booleanF =>
      if pyLower raw ∈ (["1", "0", "true", "false", "t", "f"] : List String) then
        db_final (Value.bool (pyLower raw ∈ (["1", "t", "true"] : List String)))
      else (Value.str raw, some "Value must be 1, 0, true, false, t or f.")
    | .blobF =>
      match pyB64Decode raw with
      | some bs => db_final (Value.bytes bs)
      | none => (Value.str raw, some "Value must be base64-encoded binary data.")
    | _ => db_final (Value.str raw)

example : minimal_validate_field ⟨.booleanF, false⟩ "T" = (Value.bool true, none) := by decide
example : (minimal_validate_field ⟨.booleanF, false⟩ "maybe").2 =
    some "Value must be 1, 0, true, false, t or f." := by decide
example : minimal_validate_field ⟨.textF, true⟩ " NULL " = (Value.null, none) := by decide
example : minimal_validate_field ⟨.textF, false⟩ "null" =
    (Value.str "NULL", some "Column does not allow NULL values.") := by decide
example : minimal_validate_field ⟨.blobF, false⟩ "YWJj" =
    (Value.bytes [97, 98, 99], none) := by decide
example : (minimal_validate_field ⟨.integerF, false⟩ "xyz").2 =
    some "Value is not a number." := by decide
example : (minimal_validate_field ⟨.floatF, false⟩ "1.5e3").2 = none := by decide
example : (minimal_validate_field ⟨.floatF, false⟩ "1.5.3").2 =
    some "Value is not a numeric/real." := by decide

/-! ## The primary-key codec: encode_pk / decode_pk

Rows are modelled as ordered associations from column name to the string
form of the stored value (str(row[k]) in the source; for the claims under
verification the values involved are strings, on which str is the
identity). -/

abbrev Row := List (String × String)

/-- Python row[k]: first binding for k, none when the key is missing
(a missing key raises KeyError in the source; callers that catch it are
modelled on the none branch). -/
def rowGet (row : Row) (k : String) : Option String :=
  match row with
  | [] => none
  | (k₁, v) :: rest => if k₁ = k then some v else rowGet rest k

/-- A peewee primary-key descriptor: a plain single-column key or a
CompositeKey over an ordered list of field names. -/
inductive PrimaryKey
  | single (column_name : String)
  | composite (field_names : List String)
deriving DecidableEq, Repr

/-- Python ":::".join(values). -/
def joinDelim : List String → String
  | [] => ""
  | [s] => s
  | s :: rest => s ++ ":::" ++ joinDelim rest

/-- [str(row[k]) for k in pk.field_names], with a missing key raising
(modelled as none for the whole list). -/
def getFields (row : Row) : List String → Option (List String)
  | [] => some []
  | f :: rest =>
    match rowGet row f, getFields row rest with
    | some v, some vs => some (v :: vs)
    | _, _ => none

/-- encode_pk(row, pk) from the source: for a CompositeKey, join the
string forms of the key fields with ":::", returning "__uneditable__"
if an exception occurs while building the list (a missing field); for a
single-column key, return the raw column value (a missing column raises
out of the filter, modelled as none). -/
def encode_pk (row : Row) (pk : PrimaryKey) : Option String :=
  match pk with
  | .composite field_names =>
    match getFields row field_names with
    | some vals => some (joinDelim vals)
    | none => some "__uneditable__"
  | .single column_name => rowGet row column_name

/-- Python pk_data.split(":::"): left-to-right, non-overlapping, keeping
empty pieces. -/
def splitDelim : List Char → List Char → List String
  | [], acc => [String.mk acc.reverse]
  | ':' :: ':' :: ':' :: rest, acc => String.mk acc.reverse :: splitDelim rest []
  | c :: rest, acc => splitDelim rest (c :: acc)

/-- The peewee filter expression decode_pk builds: per-field equality
tests combined with AND. -/
inductive PkExpr
  | eq (column : String) (value : String)
  | and (lhs rhs : PkExpr)
deriving DecidableEq, Repr

/-- decode_pk(model, pk_data) from the source: a CompositeKey splits the
token on ":::", zips the pieces with the key fields in declaration order
and reduces the per-field equalities with operator.and_ (reduce on an
empty sequence raises, modelled as none; composite keys always carry at
least one field); a single-column key compares the field to the whole
token. -/
def decode_pk (pk : PrimaryKey) (pk_data : String) : Option PkExpr :=
  match pk with
  | .composite field_names =>
    let values := splitDelim pk_data.data []
    match (field_names.zip values).map (fun fv => PkExpr.eq fv.1 fv.2) with
    | [] => none
    | e :: es => some (es.foldl PkExpr.and e)
  | .single column_name => some (.eq column_name pk_data)

/-- Evaluation of a decoded filter expression against a row, as the
database would evaluate the generated WHERE clause. -/
def evalPkExpr : PkExpr → Row → Bool
  | .eq c v, row => rowGet row c == some v
  | .and a b, row => evalPkExpr a row && evalPkExpr b row

example : encode_pk [("a", "x"), ("b", "y")] (.composite ["a", "b"]) =
    some "x:::y" := by decide
example : decode_pk (.composite ["a", "b"]) "x:::y" =
    some (.and (.eq "a" "x") (.eq "b" "y")) := by decide
example : encode_pk [("a", "x:::y"), ("b", "z")] (.composite ["a", "b"]) =
    some "x:::y:::z" := by decide
example : splitDelim "a::::b".data [] = ["a", ":b"] := by decide

/-! ## Pagination arithmetic of the table_content view -/

/-- The page-number parse at the head of table_content: the requested
page string, with "last" replaced by the literal "1000000", is parsed by
int() when it isdigit() and otherwise falls back to 1. -/
def parse_page (s : String) : Nat :=
  let t := if s = "last" then "1000000" else s
  if pyIsDigit t then digitsToNat t.data else 1

/-- total_pages = max(1, int(math.ceil(total_rows / float(rows_per_page))))
with the float ceiling modelled as exact ceiling division. -/
def total_pages_calc (total_rows rows_per_page : Nat) : Nat :=
  max 1 ((total_rows + rows_per_page - 1) / rows_per_page)

/-- The bound restriction of table_content:
page_number = max(min(page_number, total_pages), 1). -/
def resolve_page (page : String) (total_rows rows_per_page : Nat) : Nat :=
  max (min (parse_page page) (total_pages_calc total_rows rows_per_page)) 1

example : total_pages_calc 125 50 = 3 := by decide
example : resolve_page "last" 125 50 = 3 := by decide
example : resolve_page "0" 125 50 = 1 := by decide
example : resolve_page "-1" 125 50 = 1 := by decide
example : resolve_page "2" 125 50 = 2 := by decide

/-! ## The structural-mutation views

Each view's POST branch is modelled as the ordered list of externally
visible operations it performs: issuing the migration DDL, flashing a
message, refreshing the per-table metadata cache (dataset.update_cache),
redirecting, or an exception raised while evaluating an attribute access.
The migrate_ok parameter models whether the DDL raised inside the
try block. Exception text interpolated into the flash messages is elided
except where it is determined by the model (drop_index). -/

inductive Effect
  | migrate
  | updateCache
  | redirect
  | flashSuccess (msg : String)
  | flashDanger (msg : String)
  | raiseAttributeError (attr : String)
deriving DecidableEq, Repr

/-- The keys of the column_mapping OrderedDict in add_column. -/
def column_type_names : List String :=
  ["TEXT", "INTEGER", "REAL", "BLOB", "JSON", "BOOL", "DATETIME",
   "DATE", "DECIMAL", "TIME", "VARCHAR"]

/-- POST branch of the add_column view: requires a nonempty name and a
known column type, migrates, and on success flashes, refreshes the cache
for the table and redirects. (The foreign-key variant only changes the
column object passed to the migrator, not the effect sequence.) -/
def add_column_post (name col_type : String) (migrate_ok : Bool) : List Effect :=
  if name ≠ "" ∧ col_type ∈ column_type_names then
    if migrate_ok then
      [.migrate,
       .flashSuccess ("Column \"" ++ name ++ "\" was added successfully!"),
       .updateCache, .redirect]
    else
      [.migrate, .flashDanger ("Error attempting to add column \"" ++ name ++ "\"")]
  else [.flashDanger "Name and column type are required."]

/-- POST branch of the drop_column view: requires the name to be among
the table's current column names. -/
def drop_column_post (name : String) (column_names : List String)
    (migrate_ok : Bool) : List Effect :=
  if name ∈ column_names then
    if migrate_ok then
      [.migrate,
       .flashSuccess ("Column \"" ++ name ++ "\" was dropped successfully!"),
       .updateCache, .redirect]
    else
      [.migrate, .flashDanger ("Error attempting to drop column \"" ++ name ++ "\"")]
  else [.flashDanger "Name is required."]

/-- POST branch of the rename_column view: requires rename to be an
existing column and rename_to not to be one. -/
def rename_column_post (rename rename_to : String) (column_names : List String)
    (migrate_ok : Bool) : List Effect :=
  if rename ∈ column_names ∧ rename_to ∉ column_names then
    if migrate_ok then
      [.migrate,
       .flashSuccess ("Column \"" ++ rename ++ "\" was renamed successfully!"),
       .updateCache, .redirect]
    else
      [.migrate, .flashDanger ("Error attempting to rename column \"" ++ rename ++ "\"")]
  else
    [.flashDanger
      "Column name is required and cannot conflict with an existing column's name."]

/-- POST branch of the add_index view: requires a nonempty column
selection. Note the success branch flashes and redirects without any
cache refresh. -/
def add_index_post (indexed_columns : List String) (migrate_ok : Bool) : List Effect :=
  if indexed_columns ≠ [] then
    if migrate_ok then
      [.migrate, .flashSuccess "Index created successfully.", .redirect]
    else
      [.migrate, .flashDanger "Error attempting to create index:"]
  else [.flashDanger "One or more columns must be selected."]

/-- The CPython message for the attribute error the drop_index view
triggers: indexes is the plain list returned by get_indexes. -/
def list_migrator_attr_error : String := "'list' object has no attribute '_migrator'"

/-- POST branch of the drop_index view. The source evaluates
indexes._migrator.drop_index(table, name) where indexes is the list of
IndexMetadata returned by get_indexes; the attribute access raises
AttributeError inside the try block before any migration can run, so the
except branch flashes the error and the success branch is unreachable. -/
def drop_index_post (name : String) (index_names : List String) : List Effect :=
  if name ∈ index_names then
    [.raiseAttributeError "_migrator",
     .flashDanger ("Error attempting to drop index: " ++ list_migrator_attr_error)]
  else [.flashDanger "Index name is required."]

example : Effect.updateCache ∉ add_index_post ["c1"] true := by decide
example : Effect.updateCache ∈ add_column_post "age" "INTEGER" true := by decide

/-! ## Form processing of table_insert and table_update -/

/-- One column descriptor as the views consume it: its name and the
peewee field the model class holds for it. -/
structure ColumnInfo where
  name : String
  field : FieldInfo
deriving DecidableEq, Repr

/-- col_dict[key] lookup: the first column whose name equals the key
(column names are unique within a table, so first match is the match). -/
def find_column (cols : List ColumnInfo) (k : String) : Option ColumnInfo :=
  cols.find? (fun c => c.name == k)

/-- The shared form-processing loop of table_insert and table_update:
walk the submitted (key, value) pairs in order, skip keys that name no
column in col_dict, validate the rest, and accumulate field-level errors
and validated values (both keyed by column, in form order). -/
def process_form (cols : List ColumnInfo) :
    List (String × String) → List (String × String) × List (String × Value)
  | [] => ([], [])
  | (k, v) :: rest =>
    let r := process_form cols rest
    match find_column cols k with
    | none => r
    | some col =>
      match minimal_validate_field col.field v with
      | (_, some e) => ((k, e) :: r.1, r.2)
      | (tv, none) => (r.1, (k, tv) :: r.2)

/-- table_insert builds col_dict from the table's columns, skipping
AutoField instances. -/
def insert_columns (columns : List ColumnInfo) : List ColumnInfo :=
  columns.filter (fun c => !(c.field.ftype == FieldKind.autoF))

inductive InsertOutcome
  | validationError (errors : List (String × String))
  | inserted (values : List (String × Value))
  | insertFailed (values : List (String × Value))
  | noData
deriving DecidableEq, Repr

/-- POST branch of the table_insert view: when any field-level error was
recorded the row is not inserted and the errors are reported; otherwise a
nonempty validated mapping is inserted inside a transaction (txn_ok
models whether the engine accepted it); an empty mapping inserts
nothing. -/
def table_insert_post (form : List (String × String)) (columns : List ColumnInfo)
    (txn_ok : Bool) : InsertOutcome :=
  let processed := process_form (insert_columns columns) form
  if processed.1 ≠ [] then .validationError processed.1
  else if processed.2 ≠ [] then
    if txn_ok then .inserted processed.2 else .insertFailed processed.2
  else .noData

inductive UpdateOutcome
  | validationError (errors : List (String × String))
  | updated (values : List (String × Value))
  | updateFailed (values : List (String × Value))
  | noData
deriving DecidableEq, Repr

/-- POST branch of the table_update view (after the row addressed by the
primary key has been fetched): same loop as table_insert but over all of
the table's columns (no AutoField exclusion), updating instead of
inserting. -/
def table_update_post (form : List (String × String)) (columns : List ColumnInfo)
    (txn_ok : Bool) : UpdateOutcome :=
  let processed := process_form columns form
  if processed.1 ≠ [] then .validationError processed.1
  else if processed.2 ≠ [] then
    if txn_ok then .updated processed.2 else .updateFailed processed.2
  else .noData

example :
    table_insert_post [("a", "1"), ("b", "xyz")]
      [⟨"a", ⟨.integerF, false⟩⟩, ⟨"b", ⟨.integerF, false⟩⟩] true =
    .validationError [("b", "Value is not a number.")] := by decide
example :
    table_insert_post [("a", "1"), ("junk", "zzz")]
      [⟨"a", ⟨.integerF, false⟩⟩] true =
    .inserted [("a", Value.str "1")] := by decide

/-! ## Claim theorems -/

def isSuccessFlash : Effect → Bool
  | .flashSuccess _ => true
  | _ => false

/-- C1 counterexample: the add_index view completes successfully (its
success flash is emitted) yet its effect sequence contains no metadata
cache refresh, contradicting the claim that every structural mutation
invalidates and rebuilds the cached metadata before returning. -/
theorem add_index_no_cache_refresh_cex :
    add_index_post ["c1"] true =
      [.migrate, .flashSuccess "Index created successfully.", .redirect] ∧
    Effect.updateCache ∉ add_index_post ["c1"] true := by decide

/-- C1 (amended): the column mutations AddColumn, DropColumn and
RenameColumn refresh the table's cached metadata on success before
redirecting, but AddIndex never refreshes it, and DropIndex never
refreshes it either (nor can it succeed, see C3). -/
theorem column_mutations_refresh_cache
    (name col_type dname rename rename_to iname : String)
    (drop_cols ren_cols index_cols : List String) (idx_names : List String)
    (h₁ : name ≠ "" ∧ col_type ∈ column_type_names)
    (h₂ : dname ∈ drop_cols)
    (h₃ : rename ∈ ren_cols ∧ rename_to ∉ ren_cols) :
    (Effect.updateCache ∈ add_column_post name col_type true ∧
     Effect.updateCache ∈ drop_column_post dname drop_cols true ∧
     Effect.updateCache ∈ rename_column_post rename rename_to ren_cols true) ∧
    (∀ migrate_ok, Effect.updateCache ∉ add_index_post index_cols migrate_ok) ∧
    Effect.updateCache ∉ drop_index_post iname idx_names := by
  refine ⟨⟨?_, ?_, ?_⟩, ?_, ?_⟩
  · rw [add_column_post, if_pos h₁]; simp
  · rw [drop_column_post, if_pos h₂]; simp
  · rw [rename_column_post, if_pos h₃]; simp
  · intro migrate_ok
    unfold add_index_post
    split_ifs <;> simp
  · unfold drop_index_post
    split_ifs <;> simp

theorem column_mutations_refresh_cache_witness :
    (Effect.updateCache ∈ add_column_post "age" "INTEGER" true ∧
     Effect.updateCache ∈ drop_column_post "age" ["id", "age"] true ∧
     Effect.updateCache ∈ rename_column_post "a" "c" ["a", "b"] true) ∧
    (∀ migrate_ok, Effect.updateCache ∉ add_index_post ["c1"] migrate_ok) ∧
    Effect.updateCache ∉ drop_index_post "idx" ["idx"] :=
  column_mutations_refresh_cache "age" "INTEGER" "age" "a" "c" "idx"
    ["id", "age"] ["a", "b"] ["c1"] ["idx"]
    (by decide) (by decide) (by decide)

/-- C3: for an index name that exists on the table, the drop_index view
does not execute the drop: evaluating indexes._migrator on the plain
list returned by get_indexes raises AttributeError, which the handler
catches and reports as a failure, so no success is ever flashed and the
index is never removed. -/
theorem drop_index_always_fails :
    drop_index_post "idx_t_col" ["idx_t_col"] =
      [.raiseAttributeError "_migrator",
       .flashDanger ("Error attempting to drop index: " ++ list_migrator_attr_error)] ∧
    (drop_index_post "idx_t_col" ["idx_t_col"]).all (fun e => !isSuccessFlash e) = true ∧
    Effect.migrate ∉ drop_index_post "idx_t_col" ["idx_t_col"] := by decide

/-- C7: when both the source and the target column name already exist on
the table, rename_column takes the rejection branch: it flashes the
conflict message and issues no DDL, leaving the columns untouched. -/
theorem rename_column_conflict_rejected (rename rename_to : String)
    (column_names : List String) (migrate_ok : Bool)
    (h₁ : rename ∈ column_names) (h₂ : rename_to ∈ column_names) :
    rename_column_post rename rename_to column_names migrate_ok =
      [.flashDanger
        "Column name is required and cannot conflict with an existing column's name."] ∧
    Effect.migrate ∉ rename_column_post rename rename_to column_names migrate_ok := by
  have hcond : ¬(rename ∈ column_names ∧ rename_to ∉ column_names) := by
    rintro ⟨-, hno⟩
    exact hno h₂
  constructor
  · rw [rename_column_post, if_neg hcond]
  · rw [rename_column_post, if_neg hcond]
    simp

theorem rename_column_conflict_rejected_witness :
    rename_column_post "a" "b" ["a", "b"] true =
      [.flashDanger
        "Column name is required and cannot conflict with an existing column's name."] :=
  (rename_column_conflict_rejected "a" "b" ["a", "b"] true (by decide) (by decide)).1

/-- C5 counterexample: "last" is translated to the literal page string
"1000000" before clamping, so when the table has more than 1000000 pages
(totalRows = 50000050, pageSize = 50 gives totalPages = 1000001) the
"last" request resolves to 1000000, not to totalPages. -/
theorem last_page_cap_cex :
    total_pages_calc 50000050 50 = 1000001 ∧
    resolve_page "last" 50000050 50 = 1000000 ∧
    resolve_page "last" 50000050 50 ≠ total_pages_calc 50000050 50 := by decide

/-- C5 (amended): totalPages = max(1, ceil(totalRows / pageSize)) (stated
by its defining bounds), page "0" and negative pages resolve to 1, every
resolved page lies in [1, totalPages], and "last" resolves to totalPages
whenever totalPages does not exceed the 1000000 stand-in (in particular
totalRows = 125, pageSize = 50 gives totalPages = 3 and "last" resolves
to 3). -/
theorem pagination_clamps (total_rows rows_per_page : Nat) (page : String)
    (hps : 0 < rows_per_page) :
    total_pages_calc total_rows rows_per_page =
      max 1 (total_rows ⌈/⌉ rows_per_page) ∧
    resolve_page "0" total_rows rows_per_page = 1 ∧
    resolve_page "-1" total_rows rows_per_page = 1 ∧
    (total_pages_calc total_rows rows_per_page ≤ 1000000 →
      resolve_page "last" total_rows rows_per_page =
        total_pages_calc total_rows rows_per_page) ∧
    1 ≤ resolve_page page total_rows rows_per_page ∧
    resolve_page page total_rows rows_per_page ≤
      total_pages_calc total_rows rows_per_page ∧
    total_pages_calc 125 50 = 3 ∧
    resolve_page "last" 125 50 = 3 := by
  have h0 : parse_page "0" = 0 := by decide
  have h1 : parse_page "-1" = 1 := by decide
  have hl : parse_page "last" = 1000000 := by decide
  refine ⟨rfl, ?_, ?_, ?_, ?_, ?_, by decide, by decide⟩
  · unfold resolve_page total_pages_calc
    rw [h0]; omega
  · unfold resolve_page total_pages_calc
    rw [h1]; omega
  · unfold resolve_page total_pages_calc
    rw [hl]; omega
  · unfold resolve_page total_pages_calc
    omega
  · unfold resolve_page total_pages_calc
    omega

theorem pagination_clamps_witness :
    1 ≤ resolve_page "7" 125 50 ∧
    resolve_page "7" 125 50 ≤ total_pages_calc 125 50 ∧
    resolve_page "0" 125 50 = 1 :=
  ⟨(pagination_clamps 125 50 "7" (by decide)).2.2.2.2.1,
   (pagination_clamps 125 50 "7" (by decide)).2.2.2.2.2.1,
   (pagination_clamps 125 50 "7" (by decide)).2.1⟩

/-- C2 counterexample: a composite-key field whose string form contains
the ":::" delimiter is joined as-is: two different rows encode to the
same token "x:::y:::z", and no "__uneditable__" sentinel is produced. -/
theorem encode_pk_delimiter_ambiguous_cex :
    encode_pk [("a", "x:::y"), ("b", "z")] (.composite ["a", "b"]) =
      some "x:::y:::z" ∧
    encode_pk [("a", "x"), ("b", "y:::z")] (.composite ["a", "b"]) =
      some "x:::y:::z" ∧
    encode_pk [("a", "x:::y"), ("b", "z")] (.composite ["a", "b"]) ≠
      some "__uneditable__" := by decide

/-- C2 (amended): composite-key encoding returns the "__uneditable__"
sentinel exactly when building the list of key-field string forms raises
(a key field missing from the row); whenever every key field is present,
the string forms are joined with ":::" unconditionally — including
fields whose string form contains the delimiter, which therefore produce
an ambiguous token rather than the sentinel. -/
theorem encode_pk_sentinel_only_on_missing_field (row : Row)
    (field_names : List String) (vals : List String)
    (hvals : getFields row field_names = some vals) :
    encode_pk row (.composite field_names) = some (joinDelim vals) ∧
    (∀ fs : List String, getFields row fs = none →
      encode_pk row (.composite fs) = some "__uneditable__") := by
  constructor
  · simp only [encode_pk]
    rw [hvals]
  · intro fs h
    simp only [encode_pk]
    rw [h]

theorem encode_pk_sentinel_only_on_missing_field_witness :
    encode_pk [("a", "x:::y"), ("b", "z")] (.composite ["a", "b"]) =
      some (joinDelim ["x:::y", "z"]) :=
  (encode_pk_sentinel_only_on_missing_field [("a", "x:::y"), ("b", "z")]
    ["a", "b"] ["x:::y", "z"] (by decide)).1

/-- C6: primary-key codec round trip. For a single-column key, the
encoded token is the key value and decoding it yields an equality
predicate that holds of exactly the encoded row among the table's rows
(key uniqueness given). For the composite key (a="x", b="y"), encode
produces "x:::y" and decode splits it back into the conjunction of the
per-field equalities, whose evaluation agrees with a = "x" AND b = "y"
on every row. -/
theorem pk_roundtrip (table : List Row) (row : Row) (c v : String)
    (hmem : row ∈ table) (hv : rowGet row c = some v)
    (hinj : ∀ r ∈ table, rowGet r c = some v → r = row) :
    (encode_pk row (.single c) = some v ∧
     ∃ e, decode_pk (.single c) v = some e ∧
       ∀ r ∈ table, (evalPkExpr e r = true ↔ r = row)) ∧
    (encode_pk [("a", "x"), ("b", "y")] (.composite ["a", "b"]) = some "x:::y" ∧
     ∃ e, decode_pk (.composite ["a", "b"]) "x:::y" = some e ∧
       ∀ r : Row, evalPkExpr e r =
         ((rowGet r "a" == some "x") && (rowGet r "b" == some "y"))) := by
  refine ⟨⟨?_, .eq c v, rfl, ?_⟩,
          ?_, .and (.eq "a" "x") (.eq "b" "y"), by decide, fun r => rfl⟩
  · simpa [encode_pk] using hv
  · intro r hr
    constructor
    · intro he
      apply hinj r hr
      simpa [evalPkExpr] using he
    · rintro rfl
      simp [evalPkExpr, hv]
  · decide

theorem pk_roundtrip_witness :
    encode_pk [("id", "1"), ("n", "a")] (.single "id") = some "1" :=
  (pk_roundtrip [[("id", "1"), ("n", "a")], [("id", "2"), ("n", "b")]]
    [("id", "1"), ("n", "a")] "id" "1"
    (by decide) (by decide) (by decide)).1.1

/-- Every submitted pair whose key resolves to a column and whose value
fails validation contributes its field-level error to the error list the
form-processing loop accumulates. -/
theorem process_form_errors_mem (cols : List ColumnInfo)
    (form : List (String × String)) (k v : String) (col : ColumnInfo) (e : String)
    (hmem : (k, v) ∈ form) (hfind : find_column cols k = some col)
    (herr : (minimal_validate_field col.field v).2 = some e) :
    (k, e) ∈ (process_form cols form).1 := by
  induction form with
  | nil => cases hmem
  | cons kv rest ih =>
    obtain ⟨k₁, v₁⟩ := kv
    rcases List.mem_cons.mp hmem with h | h
    · cases h
      rcases hval : minimal_validate_field col.field v with ⟨val, err⟩
      rw [hval] at herr
      simp only at herr
      subst herr
      simp only [process_form, hfind, hval]
      exact List.mem_cons_self _ _
    · have htail := ih h
      simp only [process_form]
      rcases hfc : find_column cols k₁ with _ | col₁
      · exact htail
      · rcases hv₁ : minimal_validate_field col₁.field v₁ with ⟨val₁, err₁⟩
        cases err₁ with
        | none =>
          simp only [hv₁]
          exact htail
        | some e₁ =>
          simp only [hv₁]
          exact List.mem_cons_of_mem _ htail

/-- C4: an Insert whose submitted mapping contains at least one value
failing validation (for a key resolving to an insertable column) is
rejected wholesale: table_insert takes the validation-error branch — no
insert statement is executed — and the reported error list carries the
field-level error of every failing column. -/
theorem insert_rejected_wholesale (form : List (String × String))
    (columns : List ColumnInfo) (txn_ok : Bool)
    (h : ∃ k v col e, (k, v) ∈ form ∧
         find_column (insert_columns columns) k = some col ∧
         (minimal_validate_field col.field v).2 = some e) :
    ∃ errs, table_insert_post form columns txn_ok = .validationError errs ∧
      ∀ k v col e, (k, v) ∈ form →
        find_column (insert_columns columns) k = some col →
        (minimal_validate_field col.field v).2 = some e → (k, e) ∈ errs := by
  obtain ⟨k, v, col, e, hmem, hfind, herr⟩ := h
  have hk := process_form_errors_mem (insert_columns columns) form k v col e
    hmem hfind herr
  have hne : (process_form (insert_columns columns) form).1 ≠ [] := by
    intro hnil
    rw [hnil] at hk
    cases hk
  refine ⟨(process_form (insert_columns columns) form).1, ?_, ?_⟩
  · unfold table_insert_post
    rw [if_pos hne]
  · intro k₂ v₂ col₂ e₂ hm hf he
    exact process_form_errors_mem (insert_columns columns) form k₂ v₂ col₂ e₂ hm hf he

theorem insert_rejected_wholesale_witness :
    ∃ errs,
      table_insert_post [("a", "1"), ("b", "xyz")]
        [⟨"a", ⟨.integerF, false⟩⟩, ⟨"b", ⟨.integerF, false⟩⟩] true =
        .validationError errs ∧
      ("b", "Value is not a number.") ∈ errs := by
  obtain ⟨errs, h₁, h₂⟩ := insert_rejected_wholesale [("a", "1"), ("b", "xyz")]
    [⟨"a", ⟨.integerF, false⟩⟩, ⟨"b", ⟨.integerF, false⟩⟩] true
    ⟨"b", "xyz", ⟨"b", ⟨.integerF, false⟩⟩, "Value is not a number.",
      by decide, by decide, by decide⟩
  exact ⟨errs, h₁,
    h₂ "b" "xyz" ⟨"b", ⟨.integerF, false⟩⟩ "Value is not a number."
      (by decide) (by decide) (by decide)⟩

theorem find_column_mem_names (cols : List ColumnInfo) (k : String)
    (col : ColumnInfo) (h : find_column cols k = some col) :
    col ∈ cols ∧ col.name = k := by
  unfold find_column at h
  exact ⟨List.mem_of_find?_eq_some h, by simpa using List.find?_some h⟩

theorem find_column_none_of_not_mem (cols : List ColumnInfo) (k : String)
    (h : k ∉ cols.map ColumnInfo.name) : find_column cols k = none := by
  unfold find_column
  rw [List.find?_eq_none]
  intro c hc hbeq
  exact h (List.mem_map.mpr ⟨c, hc, by simpa using hbeq⟩)

/-- Every error and every validated value accumulated by the
form-processing loop is keyed by the name of one of its columns. -/
theorem process_form_keys (cols : List ColumnInfo) (form : List (String × String)) :
    (∀ p ∈ (process_form cols form).1, p.1 ∈ cols.map ColumnInfo.name) ∧
    (∀ p ∈ (process_form cols form).2, p.1 ∈ cols.map ColumnInfo.name) := by
  induction form with
  | nil =>
    exact ⟨fun p hp => absurd hp (List.not_mem_nil p),
           fun p hp => absurd hp (List.not_mem_nil p)⟩
  | cons kv rest ih =>
    obtain ⟨k₁, v₁⟩ := kv
    rcases hfc : find_column cols k₁ with _ | col₁
    · simp only [process_form, hfc]
      exact ih
    · have hcol := find_column_mem_names cols k₁ col₁ hfc
      rcases hv₁ : minimal_validate_field col₁.field v₁ with ⟨val₁, err₁⟩
      cases err₁ with
      | none =>
        simp only [process_form, hfc, hv₁]
        refine ⟨ih.1, ?_⟩
        intro p hp
        rcases List.mem_cons.mp hp with h | h
        · subst h
          exact List.mem_map.mpr ⟨col₁, hcol.1, hcol.2⟩
        · exact ih.2 p h
      | some e₁ =>
        simp only [process_form, hfc, hv₁]
        refine ⟨?_, ih.2⟩
        intro p hp
        rcases List.mem_cons.mp hp with h | h
        · subst h
          exact List.mem_map.mpr ⟨col₁, hcol.1, hcol.2⟩
        · exact ih.1 p h

/-- Dropping the form entries whose keys name no column the loop can see
does not change its output: such entries are skipped. -/
theorem process_form_filter_invariant (cols : List ColumnInfo)
    (names : List String) (hsub : ∀ c ∈ cols, c.name ∈ names)
    (form : List (String × String)) :
    process_form cols (form.filter (fun kv => names.contains kv.1)) =
      process_form cols form := by
  induction form with
  | nil => rfl
  | cons kv rest ih =>
    obtain ⟨k₁, v₁⟩ := kv
    by_cases hk : names.contains k₁ = true
    · simp only [List.filter_cons]
      rw [if_pos hk]
      simp only [process_form, ih]
    · simp only [List.filter_cons]
      rw [if_neg hk]
      have hnone : find_column cols k₁ = none := by
        apply find_column_none_of_not_mem
        intro hmem
        rcases List.mem_map.mp hmem with ⟨c, hc, hname⟩
        exact hk (List.elem_iff.mpr (hname ▸ hsub c hc))
      rw [ih]
      simp only [process_form, hnone]

theorem insert_columns_names_sub (columns : List ColumnInfo) :
    ∀ c ∈ insert_columns columns, c.name ∈ columns.map ColumnInfo.name :=
  fun c hc => List.mem_map.mpr ⟨c, List.mem_of_mem_filter hc, rfl⟩

/-- C10: table_insert and table_update only ever touch columns of the
table's current schema. Filtering the submitted form down to the entries
whose keys name schema columns changes neither operation's outcome
(unknown keys are silently skipped), and every field-level error and
every written value produced by either operation is keyed by a schema
column name. -/
theorem unknown_keys_ignored (form : List (String × String))
    (columns : List ColumnInfo) (txn_ok : Bool) :
    table_insert_post
        (form.filter (fun kv => (columns.map ColumnInfo.name).contains kv.1))
        columns txn_ok =
      table_insert_post form columns txn_ok ∧
    (∀ p ∈ (process_form (insert_columns columns) form).1,
      p.1 ∈ columns.map ColumnInfo.name) ∧
    (∀ p ∈ (process_form (insert_columns columns) form).2,
      p.1 ∈ columns.map ColumnInfo.name) ∧
    table_update_post
        (form.filter (fun kv => (columns.map ColumnInfo.name).contains kv.1))
        columns txn_ok =
      table_update_post form columns txn_ok ∧
    (∀ p ∈ (process_form columns form).1, p.1 ∈ columns.map ColumnInfo.name) ∧
    (∀ p ∈ (process_form columns form).2, p.1 ∈ columns.map ColumnInfo.name) := by
  have hins := process_form_filter_invariant (insert_columns columns)
    (columns.map ColumnInfo.name) (insert_columns_names_sub columns) form
  have hupd := process_form_filter_invariant columns
    (columns.map ColumnInfo.name) (fun c hc => List.mem_map.mpr ⟨c, hc, rfl⟩) form
  have hkeysI := process_form_keys (insert_columns columns) form
  have hkeysU := process_form_keys columns form
  refine ⟨?_, ?_, ?_, ?_, hkeysU.1, hkeysU.2⟩
  · unfold table_insert_post
    rw [hins]
  · intro p hp
    have := hkeysI.1 p hp
    rcases List.mem_map.mp this with ⟨c, hc, hname⟩
    exact hname ▸ insert_columns_names_sub columns c hc
  · intro p hp
    have := hkeysI.2 p hp
    rcases List.mem_map.mp this with ⟨c, hc, hname⟩
    exact hname ▸ insert_columns_names_sub columns c hc
  · unfold table_update_post
    rw [hupd]

/-- C8: the value codec is total and structured. For every field class,
null flag and raw string, validation returns a (value, error) pair whose
error component is either none or one of the five fixed structured
messages — never an uncontrolled failure; and raw text whose lowered,
stripped form is "null" decodes to the null value when the column is
nullable, and to the structured not-nullable error (returned, not
raised) when it is not. -/
theorem validate_field_total_and_null (field : FieldInfo) (raw : String) :
    ((minimal_validate_field field raw).2 = none ∨
      (minimal_validate_field field raw).2 ∈
        [some "Column does not allow NULL values.",
         some "Value is not a number.",
         some "Value is not a numeric/real.",
         some "Value must be 1, 0, true, false, t or f.",
         some "Value must be base64-encoded binary data."]) ∧
    (pyStrip (pyLower raw) = "null" →
      (field.null = true → minimal_validate_field field raw = (Value.null, none)) ∧
      (field.null = false →
        minimal_validate_field field raw =
          (Value.str "NULL", some "Column does not allow NULL values."))) := by
  obtain ⟨ft, nl⟩ := field
  constructor
  · unfold minimal_validate_field db_final
    by_cases hnull : pyStrip (pyLower raw) = "null"
    · rw [if_pos hnull]
      cases nl <;> simp
    · rw [if_neg hnull]
      cases ft <;> dsimp only <;>
        first
          | ((split_ifs <;> simp) <;> done)
          | ((rcases hb : pyB64Decode raw with _ | bs <;> simp [hb]) <;> done)
          | simp
  · intro hnull
    constructor <;> intro hnl <;> subst hnl <;>
      unfold minimal_validate_field <;> rw [if_pos hnull] <;> simp

theorem validate_field_total_and_null_witness :
    minimal_validate_field ⟨FieldKind.textF, true⟩ " NULL " = (Value.null, none) ∧
    minimal_validate_field ⟨FieldKind.textF, false⟩ " NULL " =
      (Value.str "NULL", some "Column does not allow NULL values.") :=
  ⟨((validate_field_total_and_null ⟨FieldKind.textF, true⟩ " NULL ").2
      (by decide)).1 rfl,
   ((validate_field_total_and_null ⟨FieldKind.textF, false⟩ " NULL ").2
      (by decide)).2 rfl⟩

/-- C9 counterexample: the blob validator accepts "YW Jj" — a string
that is not valid base64 (it contains a space) — because the stdlib
decoder the source calls skips characters outside the base64 alphabet
while decoding; no ValidationError is produced, refuting "a
ValidationError for any string that is not valid base64". -/
theorem blob_lenient_base64_cex :
    minimal_validate_field ⟨FieldKind.blobF, false⟩ "YW Jj" =
      (Value.bytes [97, 98, 99], none) ∧
    validBase64 "YW Jj" = false := by decide

/-- C9 (amended): for a non-null raw string decoded against a BLOB
column, decode succeeds exactly when Python's lenient base64 decoder
accepts the string: the string must be ASCII (so "é" fails); characters
outside the base64 alphabet are ignored; data characters are consumed in
4-character groups, with '=' signs completing a group of 2 or 3 data
characters ending decoding at the bytes accumulated so far (later input
ignored, as in "YQ==YWJj" giving bytes "a") and '=' elsewhere skipped
(so "YWJj=" and "=YWJj" both give bytes "abc"); leftover data characters
fail. On success the decoded bytes are returned: base64("abc") = "YWJj"
yields bytes "abc", and "not-base64!!" yields the base64
ValidationError — but strict base64 validity is not equivalent to
acceptance (see the counterexample). -/
theorem blob_decode_lenient (raw : String)
    (h : pyStrip (pyLower raw) ≠ "null") :
    ((minimal_validate_field ⟨FieldKind.blobF, false⟩ raw).2 = none ↔
      (pyB64Decode raw).isSome = true) ∧
    (∀ bs, pyB64Decode raw = some bs →
      minimal_validate_field ⟨FieldKind.blobF, false⟩ raw =
        (Value.bytes bs, none)) ∧
    minimal_validate_field ⟨FieldKind.blobF, false⟩ "YWJj" =
      (Value.bytes [97, 98, 99], none) ∧
    (minimal_validate_field ⟨FieldKind.blobF, false⟩ "not-base64!!").2 =
      some "Value must be base64-encoded binary data." ∧
    minimal_validate_field ⟨FieldKind.blobF, false⟩ "YWJj=" =
      (Value.bytes [97, 98, 99], none) ∧
    minimal_validate_field ⟨FieldKind.blobF, false⟩ "=YWJj" =
      (Value.bytes [97, 98, 99], none) ∧
    minimal_validate_field ⟨FieldKind.blobF, false⟩ "YQ==YWJj" =
      (Value.bytes [97], none) ∧
    (minimal_validate_field ⟨FieldKind.blobF, false⟩ "é").2 =
      some "Value must be base64-encoded binary data." := by
  refine ⟨?_, ?_, by decide, by decide, by decide, by decide, by decide, by decide⟩
  · unfold minimal_validate_field
    rw [if_neg h]
    rcases hb : pyB64Decode raw with _ | bs <;> simp [hb, db_final]
  · intro bs hbs
    unfold minimal_validate_field
    rw [if_neg h]
    simp [hbs, db_final]

theorem blob_decode_lenient_witness :
    minimal_validate_field ⟨FieldKind.blobF, false⟩ "YWJj" =
      (Value.bytes [97, 98, 99], none) :=
  (blob_decode_lenient "YWJj" (by decide)).2.2.1

theorem drop_index_always_fails_witness :
    drop_index_post "idx_t_col" ["idx_t_col"] =
      [.raiseAttributeError "_migrator",
       .flashDanger ("Error attempting to drop index: " ++ list_migrator_attr_error)] :=
  drop_index_always_fails.1

theorem unknown_keys_ignored_witness :
    table_insert_post
        ([("a", "1"), ("junk", "zzz")].filter
          (fun kv => (([⟨"a", ⟨FieldKind.integerF, false⟩⟩] :
            List ColumnInfo).map ColumnInfo.name).contains kv.1))
        [⟨"a", ⟨FieldKind.integerF, false⟩⟩] true =
      table_insert_post [("a", "1"), ("junk", "zzz")]
        [⟨"a", ⟨FieldKind.integerF, false⟩⟩] true :=
  (unknown_keys_ignored [("a", "1"), ("junk", "zzz")]
    [⟨"a", ⟨FieldKind.integerF, false⟩⟩] true).1
